import Mathlib

/-!
Verification development for the CoderLang pipeline coordinator
(src/orchestrator/coordinator.py) and the code sandbox runner
(src/tools/run_code.py).

Shallow embedding conventions:
* Python dicts keyed by agent name (the `results` mapping) become
  association lists with in-place-overwrite update (`setR`), matching
  Python dict insertion/overwrite semantics.
* The remote model backend (google.generativeai) is external; it is
  modelled as an oracle `Env.gen` mapping a call's (task name, model,
  context) to either a returned text or a raised exception message.
  `json.loads` applied to the router's text, together with the dict key
  accesses performed inside the same `try` block, is modelled by the
  oracle `Env.parse`: `none` covers both a JSON parse error and a parsed
  value that is not an object (both reach the bare `except`).
* Log entries are modelled by which message was emitted (`LogMsg`);
  the wall-clock timestamp prefix of each entry is formatting only and
  is elided.  `start_time` is carried as an integer; the current clock
  is passed explicitly where `time.time()` is read.
* All embedded functions are total Lean functions, which models the
  absence of uncaught exceptions on the corresponding Python paths.
-/

/-- AgentResult as produced by Orchestrator.run_llm: the dict
{"text": ..., "ok": ...} on success (no "error" key, modelled as
`error = none`) or {"text": "", "error": ..., "ok": false} on failure. -/
structure AgentResult where
  text : String
  ok : Bool
  error : Option String
deriving Repr, DecidableEq

/-- The session's `results` dict: agent name to AgentResult, in insertion
order. -/
abbrev Results := List (String × AgentResult)

/-- Python dict assignment results[k] = v: overwrite in place when the key
exists, else append. -/
def setR : Results → String → AgentResult → Results
  | [], k, v => [(k, v)]
  | (k', v') :: rest, k, v =>
      if k' = k then (k, v) :: rest else (k', v') :: setR rest k v

/-- Python dict lookup results.get(k): the stored AgentResult, if any. -/
def getR : Results → String → Option AgentResult
  | [], _ => none
  | (k', v') :: rest, k => if k' = k then some v' else getR rest k

/-- Python results.get(k, \x7b\x7d).get("text", ""): empty string when the
agent has no recorded result. -/
def getText (rs : Results) (k : String) : String :=
  match getR rs k with
  | some r => r.text
  | none => ""

/-- Python results.get(k, \x7b\x7d).get("text"): None when the agent has no
recorded result. -/
def getTextOpt (rs : Results) (k : String) : Option String :=
  (getR rs k).map AgentResult.text

/-- Python `a or b` where `a` is an optional string and `b` a string:
None and "" are falsy. -/
def pyOrStr (a : Option String) (b : String) : String :=
  match a with
  | some s => if s = "" then b else s
  | none => b

/-- Python `a or b` on two optional strings (both None and "" falsy). -/
def pyOrOpt (a b : Option String) : Option String :=
  match a with
  | some s => if s = "" then b else some s
  | none => b

/-- The keys of the router's parsed JSON object that the coordinator (or
the spec) refers to; each field is `none` when the key is absent from the
parsed dict.  `complexity_tier` never occurs in coordinator.py; it is kept
here so that statements about its presence in a stored plan can be made. -/
structure ParsedPlan where
  intent_summary : Option String
  agents_to_run : Option (List String)
  parallelizable : Option Bool
  complexity_tier : Option String
deriving Repr, DecidableEq

/-- The plan dict as stored in session state after the INIT stage's key
normalization (agents_to_run and parallelizable defaulted when absent). -/
structure Plan where
  intent_summary : Option String
  agents_to_run : List String
  parallelizable : Bool
  complexity_tier : Option String
deriving Repr, DecidableEq

/-- The two normalization lines in the INIT branch of run_next_step:
missing "agents_to_run" becomes ["GeneralAgent"], missing
"parallelizable" becomes False.  All other keys are kept as parsed. -/
def normalizePlan (p : ParsedPlan) : Plan :=
  { intent_summary := p.intent_summary
    agents_to_run := p.agents_to_run.getD ["GeneralAgent"]
    parallelizable := p.parallelizable.getD false
    complexity_tier := p.complexity_tier }

/-- The fixed fallback plan built in the except branch:
{"intent_summary": "Fallback", "agents_to_run": ["GeneralAgent"],
"parallelizable": False}.  Note it carries no complexity_tier key. -/
def fallbackPlan : Plan :=
  { intent_summary := some "Fallback"
    agents_to_run := ["GeneralAgent"]
    parallelizable := false
    complexity_tier := none }

/-- Which log message was emitted (self.log calls in coordinator.py);
timestamps and emoji are formatting and are elided. -/
inductive LogMsg
  | routing                            -- "Routing Request..."
  | routerParseFail                    -- "Router failed JSON parse. Defaulting to GeneralChat."
  | planChosen (agents : List String)  -- "Plan: [...]"
  | stage1Start                        -- "Starting Stage 1 (Creation)..."
  | stage1Done                         -- "Stage 1 Complete."
  | noCodeSkipStage2                   -- "No code generated, skipping Stage 2."
  | stage2Start                        -- "Starting Stage 2 (Derivatives)..."
  | stage2Done                         -- "Stage 2 Complete."
  | stage3Start                        -- "Starting Stage 3 (Evaluation)..."
  | workflowComplete                   -- "Workflow Complete."
deriving Repr, DecidableEq

/-- OrchestratorSession.state: stage string, plan dict (none models the
initial empty dict \x7b\x7d), results dict, start_time, logs. -/
structure SessionState where
  stage : String
  plan : Option Plan
  results : Results
  startTime : Int
  logs : List LogMsg
deriving Repr, DecidableEq

/-- The fresh state built by OrchestratorSession.__init__ when no state is
supplied. -/
def freshState (t0 : Int) : SessionState :=
  { stage := "INIT", plan := none, results := [], startTime := t0, logs := [] }

/-- An OrchestratorSession: the prompt plus its state. -/
structure Session where
  prompt : String
  state : SessionState
deriving Repr, DecidableEq

/-- OrchestratorSession.__init__(orchestrator, prompt, state): a supplied
(truthy) state is used verbatim, otherwise a fresh state is built. -/
def mkSession (prompt : String) (t0 : Int) (st : Option SessionState) : Session :=
  { prompt := prompt, state := st.getD (freshState t0) }

/-- OrchestratorSession.to_json: \x7b"prompt": ..., "state": ...\x7d. -/
def toJson (s : Session) : String × SessionState :=
  (s.prompt, s.state)

/-- Outcome of the remote generate_content call (including the .text
accessor): a returned text, or a raised exception with its message. -/
inductive GenOutcome
  | success (text : String)
  | failure (msg : String)
deriving Repr, DecidableEq

/-- The external environment: the remote model backend as an oracle from
(task name, model, context) to an outcome, and the router-output JSON
parse as an oracle from the returned text to an optional parsed object. -/
structure Env where
  gen : String → String → String → GenOutcome
  parse : String → Option ParsedPlan

/-- True when pat occurs at the head of l. -/
def listHasPre : List Char → List Char → Bool
  | _, [] => true
  | [], _ :: _ => false
  | a :: as, b :: bs => a = b && listHasPre as bs

/-- True when pat occurs as a contiguous sublist of l. -/
def listHasSub : List Char → List Char → Bool
  | [], pat => pat.isEmpty
  | a :: rest, pat => listHasPre (a :: rest) pat || listHasSub rest pat

/-- Python `pat in s` on strings (substring containment). -/
def strContains (s pat : String) : Bool :=
  listHasSub s.toList pat.toList

/-- The code-fence stripping in run_llm: applied only when "```" occurs in
the text. -/
def stripFences (t : String) : String :=
  if strContains t "```" then
    (((t.replace "```json" "").replace "```python" "").replace "```" "").trim
  else t

def MODEL_FAST : String := "gemini-2.0-flash"
def MODEL_HEAVY : String := "gemini-2.0-flash"

/-- Orchestrator.run_llm: the try block around the remote call returns
\x7b"text": cleaned, "ok": True\x7d, the except branch returns
\x7b"text": "", "error": str(e), "ok": False\x7d; no exception escapes
(the function is total). -/
def run_llm (env : Env) (task model ctx : String) : AgentResult :=
  match env.gen task model ctx with
  | .success t => { text := stripFences t, ok := true, error := none }
  | .failure m => { text := "", ok := false, error := some m }

/-- One gateway invocation as dispatched by run_next_step: the task_name
and model passed to run_llm, and the input context. -/
structure Call where
  task : String
  model : String
  context : String
deriving Repr, DecidableEq

/-- Python plan.get("agents_to_run", []) on the stored plan (plan is the
empty dict before INIT completes). -/
def activeAgents (s : SessionState) : List String :=
  match s.plan with
  | some p => p.agents_to_run
  | none => []

/-- The Stage 1 task list, in dispatch order, as built in the PLANNED
branch: (results key, task_name, model) triples.  GeneralAgent is
suppressed when CodeGenAgent is also active. -/
def stage1Tasks (agents : List String) : List (String × String × String) :=
  (if agents.contains "ResearchAgent" then [("ResearchAgent", "Research", MODEL_FAST)] else []) ++
  (if agents.contains "GeneralAgent" && !(agents.contains "CodeGenAgent") then
    [("GeneralAgent", "Chat", MODEL_FAST)] else []) ++
  (if agents.contains "CodeGenAgent" then [("CodeGenAgent", "CodeGen", MODEL_HEAVY)] else []) ++
  (if agents.contains "ExplainAgent" then [("ExplainAgent", "Explain", MODEL_FAST)] else [])

/-- The Stage 2 derivative agent list, in dispatch order, as built in the
STAGE1 branch; each result key equals the task name. -/
def stage2Names (agents : List String) : List String :=
  (if agents.contains "SafetyAgent" then ["SafetyAgent"] else []) ++
  (if agents.contains "TestGenAgent" then ["TestGenAgent"] else []) ++
  (if agents.contains "DocstringAgent" then ["DocstringAgent"] else []) ++
  (if agents.contains "TranslateAgent" then ["TranslateAgent"] else [])

/-- OrchestratorSession.run_next_step, as a function from the session
state to the new state together with the list of gateway calls made
during the step.  A stage value matching no branch (including "COMPLETE")
falls through with no state change and no calls, as in the Python code. -/
def runNextStep (env : Env) (prompt : String) (s : SessionState) :
    SessionState × List Call :=
  if s.stage = "INIT" then
    let routeRes := run_llm env "Router" MODEL_FAST prompt
    match env.parse routeRes.text with
    | some p =>
        let plan := normalizePlan p
        ({ s with
            plan := some plan
            stage := "PLANNED"
            logs := s.logs ++ [.routing, .planChosen plan.agents_to_run] },
         [⟨"Router", MODEL_FAST, prompt⟩])
    | none =>
        ({ s with
            plan := some fallbackPlan
            stage := "PLANNED"
            logs := s.logs ++ [.routing, .routerParseFail, .planChosen fallbackPlan.agents_to_run] },
         [⟨"Router", MODEL_FAST, prompt⟩])
  else
    let agents := activeAgents s
    if s.stage = "PLANNED" then
      let tasks := stage1Tasks agents
      ({ s with
          results := tasks.foldl (fun rs t => setR rs t.1 (run_llm env t.2.1 t.2.2 prompt)) s.results
          stage := "STAGE1"
          logs := s.logs ++ [.stage1Start, .stage1Done] },
       tasks.map (fun t => ⟨t.2.1, t.2.2, prompt⟩))
    else if s.stage = "STAGE1" then
      let baseCode := getText s.results "CodeGenAgent"
      if baseCode = "" then
        ({ s with stage := "STAGE2", logs := s.logs ++ [.noCodeSkipStage2] }, [])
      else
        let ctx := "Original Request: " ++ prompt ++ "\n\nCode:\n" ++ baseCode
        let names := stage2Names agents
        ({ s with
            results := names.foldl (fun rs n => setR rs n (run_llm env n MODEL_FAST ctx)) s.results
            stage := "STAGE2"
            logs := s.logs ++ [.stage2Start, .stage2Done] },
         names.map (fun n => ⟨n, MODEL_FAST, ctx⟩))
    else if s.stage = "STAGE2" then
      let baseCode := pyOrStr (getTextOpt s.results "DocstringAgent")
        (getText s.results "CodeGenAgent")
      if agents.contains "EvaluatorAgent" && !(baseCode = "") then
        let ctx := "Req: " ++ prompt ++ "\nCode: " ++ baseCode ++
          "\nTests: " ++ getText s.results "TestGenAgent"
        ({ s with
            results := setR s.results "EvaluatorAgent" (run_llm env "Evaluator" MODEL_FAST ctx)
            stage := "COMPLETE"
            logs := s.logs ++ [.stage3Start, .workflowComplete] },
         [⟨"Evaluator", MODEL_FAST, ctx⟩])
      else
        ({ s with stage := "COMPLETE", logs := s.logs ++ [.workflowComplete] }, [])
    else (s, [])

/-- Iterated run_next_step, accumulating the gateway calls of each step;
Orchestrator.run_plan's while-loop is this with sufficient fuel (four
steps from a fresh session, as proved below). -/
def runSteps (env : Env) (prompt : String) : Nat → SessionState → SessionState × List Call
  | 0, s => (s, [])
  | n + 1, s =>
      ((runSteps env prompt n (runNextStep env prompt s).1).1,
       (runNextStep env prompt s).2 ++ (runSteps env prompt n (runNextStep env prompt s).1).2)

/-- The summary object built by OrchestratorSession.get_summary; the
latency string formatting is elided (the elapsed time is kept as an
integer difference). -/
structure Summary where
  intent : String
  generated_code : String
  explanation : Option String
  tests : Option String
  translation : Option String
  safety : Option String
  evaluation : Option String
  latency : Int
  stage : String
  logs : List LogMsg
deriving Repr, DecidableEq

/-- OrchestratorSession.get_summary; `now` is the time.time() reading used
for the latency field. -/
def getSummary (now : Int) (s : SessionState) : Summary :=
  { intent := (match s.plan with
      | some p => p.intent_summary.getD "Task"
      | none => "Task")
    generated_code := pyOrStr (getTextOpt s.results "DocstringAgent")
      (getText s.results "CodeGenAgent")
    explanation := pyOrOpt (getTextOpt s.results "ExplainAgent")
      (getTextOpt s.results "GeneralAgent")
    tests := getTextOpt s.results "TestGenAgent"
    translation := getTextOpt s.results "TranslateAgent"
    safety := getTextOpt s.results "SafetyAgent"
    evaluation := getTextOpt s.results "EvaluatorAgent"
    latency := now - s.startTime
    stage := s.stage
    logs := s.logs }

/-- The successor of each stage value as assigned by run_next_step; stage
values matching no branch (including "COMPLETE") are left unchanged. -/
def nextStage : String → String
  | "INIT" => "PLANNED"
  | "PLANNED" => "STAGE1"
  | "STAGE1" => "STAGE2"
  | "STAGE2" => "COMPLETE"
  | other => other

/-- The gateway task names that the run_next_step branch for a given
stage value may dispatch (read off the run_llm call sites of each
branch): routing sends "Router"; Stage 1 sends "Research", "Chat",
"CodeGen", "Explain"; Stage 2 sends the four derivative agent names;
Stage 3 sends "Evaluator"; every other stage value dispatches nothing. -/
def stageCallTasks : String → List String
  | "INIT" => ["Router"]
  | "PLANNED" => ["Research", "Chat", "CodeGen", "Explain"]
  | "STAGE1" => ["SafetyAgent", "TestGenAgent", "DocstringAgent", "TranslateAgent"]
  | "STAGE2" => ["Evaluator"]
  | _ => []

/-- The gateway task names of all stages already completed when a
session is at the given stage value; for "COMPLETE" (and any value
outside the chain) every task counts as completed. -/
def earlierTasks : String → List String
  | "INIT" => []
  | "PLANNED" => ["Router"]
  | "STAGE1" => ["Router", "Research", "Chat", "CodeGen", "Explain"]
  | "STAGE2" => ["Router", "Research", "Chat", "CodeGen", "Explain",
      "SafetyAgent", "TestGenAgent", "DocstringAgent", "TranslateAgent"]
  | _ => ["Router", "Research", "Chat", "CodeGen", "Explain",
      "SafetyAgent", "TestGenAgent", "DocstringAgent", "TranslateAgent", "Evaluator"]

/-- The record returned by run_python_code (src/tools/run_code.py). -/
structure RunResult where
  stdout : String
  stderr : String
  return_code : Int
deriving Repr, DecidableEq

/-- Outcome of the subprocess.run invocation on the written temp file: a
completed process with captured streams, a raised TimeoutExpired, or any
other raised exception with its message. -/
inductive SubprocOutcome
  | completed (out err : String) (code : Int)
  | timedOut
  | otherError (msg : String)
deriving Repr, DecidableEq

/-- run_python_code (src/tools/run_code.py): the completed branch returns
the captured streams and exit code; the TimeoutExpired handler returns
the synthetic record with the fixed timeout stderr and exit code 1; the
generic handler returns the prefixed message with exit code 1.  The
function is total: no exception escapes.  `exec` is the external Python
subprocess behavior, an oracle from the code string to an outcome. -/
def run_python_code (exec : String → SubprocOutcome) (codeString : String) : RunResult :=
  match exec codeString with
  | .completed out err code => { stdout := out, stderr := err, return_code := code }
  | .timedOut =>
      { stdout := ""
        stderr := "Error: Code execution timed out after 10 seconds."
        return_code := 1 }
  | .otherError m =>
      { stdout := ""
        stderr := "An unexpected error occurred: " ++ m
        return_code := 1 }

/-- Modelled from the spec: the CPython interpreter invoked by
run_python_code is external to the repository; its behavior at the two
fixed programs of spec section 8 (also asserted by
src/tests/test_tools.py) is modelled here.  print('Hello World') prints
"Hello World\n" and exits 0; print(1/0) exits nonzero with a
ZeroDivisionError traceback on stderr. -/
def pythonExecModel (code : String) : SubprocOutcome :=
  if code = "print('Hello World')" then
    .completed "Hello World\n" "" 0
  else if code = "print(1/0)" then
    .completed ""
      "Traceback (most recent call last):\n  File \"tmp.py\", line 1, in <module>\n    print(1/0)\nZeroDivisionError: division by zero\n"
      1
  else .otherError "behavior not modelled"

/-- The terminal and intermediate states of the Auto-Repair Loop state
machine of spec section 4.3. -/
inductive RepairState
  | PASSED
  | REPASSED
  | REFAILED
deriving Repr, DecidableEq

/-- Result of one auto-repair episode: the terminal state reached, how
many times the debug agent was invoked, and the resulting current code. -/
structure RepairOutcome where
  final : RepairState
  debugCalls : Nat
  finalCode : String
deriving Repr, DecidableEq

/-- Modelled from the spec: the Auto-Repair Loop of spec section 4.3 is
absent from src/ (no code in the repository invokes the sandbox runner or
the DebuggingAgent class; only the class declaration and the runner
exist).  Faithful to the spec's words: run current code plus tests in the
sandbox; non-empty stderr means FAILED; on failure invoke the debug agent
once with (code, stderr), its output unconditionally becomes the new
current code, and re-run the identical tests exactly once. -/
def autoRepair (sandbox : String → RunResult) (debugA : String → String → String)
    (code tests : String) : RepairOutcome :=
  let r1 := sandbox (code ++ "\n" ++ tests)
  if r1.stderr = "" then
    { final := .PASSED, debugCalls := 0, finalCode := code }
  else
    let code2 := debugA code r1.stderr
    let r2 := sandbox (code2 ++ "\n" ++ tests)
    if r2.stderr = "" then
      { final := .REPASSED, debugCalls := 1, finalCode := code2 }
    else
      { final := .REFAILED, debugCalls := 1, finalCode := code2 }

/-- Modelled from the spec: the trigger guard of spec section 4.3 — the
loop runs exactly when a test-generation agent produced output and the
current code is non-empty. -/
def maybeAutoRepair (sandbox : String → RunResult) (debugA : String → String → String)
    (code tests : String) : Option RepairOutcome :=
  if tests ≠ "" ∧ code ≠ "" then some (autoRepair sandbox debugA code tests) else none

/-- The final-code resolution chain exactly as claim C7 (and spec section
4.5) words it: documentation output, else debug output, else
code-generation output, else empty.  The repository's get_summary never
consults any debug key (its DebuggingAgent is never wired into the
pipeline); the debug output is modelled under the agent's name, for
comparison against the coordinator's actual resolution. -/
def claimFinalCode (rs : Results) : String :=
  pyOrStr (getTextOpt rs "DocstringAgent")
    (pyOrStr (getTextOpt rs "DebugAgent") (getText rs "CodeGenAgent"))

/-! Helper lemmas. -/

theorem getR_setR_ne (rs : Results) (k k' : String) (v : AgentResult) (h : k' ≠ k) :
    getR (setR rs k v) k' = getR rs k' := by
  induction rs with
  | nil => simp [setR, getR, Ne.symm h]
  | cons hd tl ih =>
      by_cases hk : hd.1 = k
      · simp [setR, hk, getR, h, Ne.symm h]
      · simp only [setR]
        rw [if_neg hk]
        by_cases hk' : hd.1 = k'
        · simp [getR, hk']
        · simp [getR, hk', ih]

theorem getR_stage1_foldl (env : Env) (prompt : String) (ts : List (String × String × String))
    (rs : Results) (k : String) (h : ∀ t ∈ ts, t.1 ≠ k) :
    getR (ts.foldl (fun rs t => setR rs t.1 (run_llm env t.2.1 t.2.2 prompt)) rs) k = getR rs k := by
  induction ts generalizing rs with
  | nil => rfl
  | cons hd tl ih =>
      simp only [List.foldl_cons]
      rw [ih _ (fun t ht => h t (List.mem_cons_of_mem _ ht))]
      exact getR_setR_ne _ _ _ _ (fun he => h hd (List.mem_cons_self _ _) he.symm)

theorem stage1Tasks_keys (agents : List String) :
    ∀ t ∈ stage1Tasks agents,
      t.1 = "ResearchAgent" ∨ t.1 = "GeneralAgent" ∨ t.1 = "CodeGenAgent" ∨ t.1 = "ExplainAgent" := by
  intro t ht
  simp only [stage1Tasks, List.mem_append] at ht
  rcases ht with ((h | h) | h) | h <;>
    [skip; skip; skip; skip] <;>
    · split at h <;> simp_all

theorem stage2Names_mem (agents : List String) :
    ∀ n ∈ stage2Names agents,
      n = "SafetyAgent" ∨ n = "TestGenAgent" ∨ n = "DocstringAgent" ∨ n = "TranslateAgent" := by
  intro n hn
  simp only [stage2Names, List.mem_append] at hn
  rcases hn with ((h | h) | h) | h <;>
    · split at h <;> simp_all

theorem stage_step (env : Env) (prompt : String) (s : SessionState) :
    (runNextStep env prompt s).1.stage = nextStage s.stage := by
  by_cases h1 : s.stage = "INIT"
  · cases hp : env.parse (run_llm env "Router" MODEL_FAST prompt).text <;>
      simp [runNextStep, h1, hp, nextStage]
  · by_cases h2 : s.stage = "PLANNED"
    · simp [runNextStep, h1, h2, nextStage]
    · by_cases h3 : s.stage = "STAGE1"
      · simp only [nextStage, h3]
        simp [runNextStep, h3]
        split <;> simp
      · by_cases h4 : s.stage = "STAGE2"
        · simp only [nextStage, h4]
          simp [runNextStep, h4]
          split <;> simp
        · simp [runNextStep, h1, h2, h3, h4]
          unfold nextStage
          split <;> simp_all

theorem nextStage_ne_stage3 (x : String) (h : x ≠ "STAGE3") : nextStage x ≠ "STAGE3" := by
  unfold nextStage
  split <;> simp_all

theorem runSteps_fst_succ (env : Env) (prompt : String) (n : Nat) (s : SessionState) :
    (runSteps env prompt (n + 1) s).1 = (runSteps env prompt n (runNextStep env prompt s).1).1 := by
  simp [runSteps]

theorem runSteps_stage_ne_stage3 (env : Env) (prompt : String) :
    ∀ (n : Nat) (s : SessionState), s.stage ≠ "STAGE3" →
      (runSteps env prompt n s).1.stage ≠ "STAGE3" := by
  intro n
  induction n with
  | zero => intro s h; simpa [runSteps] using h
  | succ m ih =>
      intro s h
      rw [runSteps_fst_succ]
      exact ih _ (by rw [stage_step]; exact nextStage_ne_stage3 _ h)

theorem init_results_eq (env : Env) (prompt : String) (s : SessionState)
    (h : s.stage = "INIT") :
    (runNextStep env prompt s).1.results = s.results := by
  cases hp : env.parse (run_llm env "Router" MODEL_FAST prompt).text <;>
    simp [runNextStep, h, hp]

theorem planned_results_eq (env : Env) (prompt : String) (s : SessionState)
    (h : s.stage = "PLANNED") :
    (runNextStep env prompt s).1.results =
      (stage1Tasks (activeAgents s)).foldl
        (fun rs t => setR rs t.1 (run_llm env t.2.1 t.2.2 prompt)) s.results := by
  simp [runNextStep, h]

theorem stage1_nocode_step (env : Env) (prompt : String) (s : SessionState)
    (h : s.stage = "STAGE1") (hb : getText s.results "CodeGenAgent" = "") :
    runNextStep env prompt s =
      ({ s with stage := "STAGE2", logs := s.logs ++ [.noCodeSkipStage2] }, []) := by
  simp [runNextStep, h, hb]

theorem stage2_skip_eval_step (env : Env) (prompt : String) (s : SessionState)
    (h : s.stage = "STAGE2")
    (hb : pyOrStr (getTextOpt s.results "DocstringAgent") (getText s.results "CodeGenAgent") = "") :
    runNextStep env prompt s =
      ({ s with stage := "COMPLETE", logs := s.logs ++ [.workflowComplete] }, []) := by
  simp [runNextStep, h, hb]

theorem stage1Tasks_tasknames (agents : List String) :
    ∀ t ∈ stage1Tasks agents,
      t.2.1 = "Research" ∨ t.2.1 = "Chat" ∨ t.2.1 = "CodeGen" ∨ t.2.1 = "Explain" := by
  intro t ht
  simp only [stage1Tasks, List.mem_append] at ht
  rcases ht with ((h | h) | h) | h <;>
    · split at h <;> simp_all

theorem init_calls (env : Env) (prompt : String) (s : SessionState)
    (h : s.stage = "INIT") :
    (runNextStep env prompt s).2 = [⟨"Router", MODEL_FAST, prompt⟩] := by
  cases hp : env.parse (run_llm env "Router" MODEL_FAST prompt).text <;>
    simp [runNextStep, h, hp]

theorem planned_calls (env : Env) (prompt : String) (s : SessionState)
    (h : s.stage = "PLANNED") :
    (runNextStep env prompt s).2 =
      (stage1Tasks (activeAgents s)).map (fun t => (⟨t.2.1, t.2.2, prompt⟩ : Call)) := by
  simp [runNextStep, h]

theorem stage2_calls (env : Env) (prompt : String) (s : SessionState)
    (h : s.stage = "STAGE2") :
    (runNextStep env prompt s).2 = [] ∨
    ∃ ctx, (runNextStep env prompt s).2 = [(⟨"Evaluator", MODEL_FAST, ctx⟩ : Call)] := by
  by_cases hc : "EvaluatorAgent" ∈ activeAgents s ∧
      ¬pyOrStr (getTextOpt s.results "DocstringAgent") (getText s.results "CodeGenAgent") = ""
  · right
    refine ⟨"Req: " ++ prompt ++ "\nCode: " ++
      pyOrStr (getTextOpt s.results "DocstringAgent") (getText s.results "CodeGenAgent") ++
      "\nTests: " ++ getText s.results "TestGenAgent", ?_⟩
    simp [runNextStep, h, hc]
  · left
    simp [runNextStep, h, hc]

theorem other_calls (env : Env) (prompt : String) (s : SessionState)
    (h1 : s.stage ≠ "INIT") (h2 : s.stage ≠ "PLANNED")
    (h3 : s.stage ≠ "STAGE1") (h4 : s.stage ≠ "STAGE2") :
    (runNextStep env prompt s).2 = [] := by
  simp [runNextStep, h1, h2, h3, h4]

theorem stage1_branch_calls (env : Env) (prompt : String) (s : SessionState)
    (h : s.stage = "STAGE1") :
    (runNextStep env prompt s).2 = [] ∨
    ∃ ctx, (runNextStep env prompt s).2 =
      (stage2Names (activeAgents s)).map (fun n => (⟨n, MODEL_FAST, ctx⟩ : Call)) := by
  by_cases hb : getText s.results "CodeGenAgent" = ""
  · left
    simp [runNextStep, h, hb]
  · right
    refine ⟨"Original Request: " ++ prompt ++ "\n\nCode:\n" ++ getText s.results "CodeGenAgent", ?_⟩
    simp [runNextStep, h, hb]

/-! Claim theorems. -/

/-- C10: every call to run_next_step advances the stage along the fixed
order INIT → PLANNED → STAGE1 → STAGE2 → COMPLETE (nextStage maps each
stage of the chain to its successor and leaves every other stage value,
"COMPLETE" included, unchanged), the stage value "STAGE3" is never stored
in a session started fresh, and four calls to run_next_step complete a
fresh session — so Orchestrator.run_plan's while-loop terminates after at
most four calls. -/
theorem stage_progression_terminates (env : Env) (prompt : String) (t0 : Int) :
    (∀ s : SessionState, (runNextStep env prompt s).1.stage = nextStage s.stage) ∧
    (∀ n : Nat, (runSteps env prompt n (freshState t0)).1.stage ≠ "STAGE3") ∧
    (runSteps env prompt 4 (freshState t0)).1.stage = "COMPLETE" := by
  refine ⟨stage_step env prompt,
    fun n => runSteps_stage_ne_stage3 env prompt n _ (by simp [freshState]), ?_⟩
  show (runSteps env prompt (3 + 1) (freshState t0)).1.stage = "COMPLETE"
  rw [runSteps_fst_succ]
  show (runSteps env prompt (2 + 1) _).1.stage = "COMPLETE"
  rw [runSteps_fst_succ]
  show (runSteps env prompt (1 + 1) _).1.stage = "COMPLETE"
  rw [runSteps_fst_succ]
  show (runSteps env prompt (0 + 1) _).1.stage = "COMPLETE"
  rw [runSteps_fst_succ]
  show (runNextStep env prompt _).1.stage = "COMPLETE"
  rw [stage_step, stage_step, stage_step, stage_step]
  rfl

/-- C4: Orchestrator.run_llm is the error boundary of the Model Gateway:
when the remote call raises, the returned AgentResult is exactly
text = "", error = the exception message, ok = false; when the remote
call returns text, the result has ok = true.  run_llm is a total
function of the outcome, so the exception is never re-raised past it to
the scheduler. -/
theorem run_llm_error_boundary (env : Env) (task model ctx : String) :
    (match env.gen task model ctx with
     | .failure m => run_llm env task model ctx = ⟨"", false, some m⟩
     | .success _ => (run_llm env task model ctx).ok = true) := by
  cases h : env.gen task model ctx <;> simp [run_llm, h]

/-- An environment whose router text never parses. -/
def cexEnvC1 : Env := ⟨fun _ _ _ => .success "not json", fun _ => none⟩

/-- C1 counterexample: on router parse failure the stored plan is the
fixed fallback dict, and that dict carries no complexity_tier key at all
— in particular its tier is not SIMPLE, contrary to the claim's fallback
of agents [GeneralAgent] with complexity tier SIMPLE. -/
theorem planner_fallback_tier_counterexample :
    (runNextStep cexEnvC1 "hi" (freshState 0)).1.plan = some fallbackPlan ∧
    fallbackPlan.complexity_tier = none ∧
    (none : Option String) ≠ some "SIMPLE" := by
  exact ⟨rfl, rfl, by simp⟩

/-- C1 (amended): for every request whose router text cannot be parsed,
the plan stored in the session state equals the fixed fallback dict
with intent_summary "Fallback", agents_to_run exactly ["GeneralAgent"]
and parallelizable false (the dict has no complexity-tier key), the
parse-failure warning is logged, and the step completes normally into
stage PLANNED — run_next_step being a total function, no parse exception
propagates to its caller. -/
theorem planner_fallback_deterministic (env : Env) (prompt : String) (s : SessionState)
    (h1 : s.stage = "INIT")
    (h2 : env.parse (run_llm env "Router" MODEL_FAST prompt).text = none) :
    (runNextStep env prompt s).1.plan = some fallbackPlan ∧
    fallbackPlan.agents_to_run = ["GeneralAgent"] ∧
    LogMsg.routerParseFail ∈ (runNextStep env prompt s).1.logs ∧
    (runNextStep env prompt s).1.stage = "PLANNED" := by
  simp [runNextStep, h1, h2, fallbackPlan]

/-- Witness for C1's amended theorem at a concrete environment. -/
theorem planner_fallback_deterministic_witness :
    (runNextStep cexEnvC1 "hi" (freshState 0)).1.plan = some fallbackPlan ∧
    fallbackPlan.agents_to_run = ["GeneralAgent"] ∧
    LogMsg.routerParseFail ∈ (runNextStep cexEnvC1 "hi" (freshState 0)).1.logs ∧
    (runNextStep cexEnvC1 "hi" (freshState 0)).1.stage = "PLANNED" :=
  planner_fallback_deterministic cexEnvC1 "hi" (freshState 0) rfl rfl

/-- A parsed router plan listing only CodeGenAgent. -/
def cexParsedC2 : ParsedPlan := ⟨none, some ["CodeGenAgent"], none, none⟩

/-- An environment whose router text parses to cexParsedC2. -/
def cexEnvC2 : Env := ⟨fun _ _ _ => .success "", fun _ => some cexParsedC2⟩

/-- C2 counterexample: the coordinator performs no structural policy
enforcement — a parsed plan listing CodeGenAgent without SafetyAgent is
stored as-is, so the effective plan contains no safety agent at all. -/
theorem planner_safety_append_counterexample :
    (runNextStep cexEnvC2 "write code" (freshState 0)).1.plan.map Plan.agents_to_run =
      some ["CodeGenAgent"] ∧
    ("SafetyAgent" ∈ (["CodeGenAgent"] : List String) → False) := by
  exact ⟨rfl, by decide⟩

/-- C2 (amended): the plan stored in the session state is exactly the
parsed router output with only the missing agents_to_run and
parallelizable keys defaulted; in particular, when the parsed agent list
is present it is stored verbatim — no safety agent is appended when a
code-generation agent is present without one (the SafetyAgent rule lives
only in the router's prompt text, delegated to the model). -/
theorem planner_stores_parsed_plan (env : Env) (prompt : String) (s : SessionState)
    (p : ParsedPlan)
    (h1 : s.stage = "INIT")
    (h2 : env.parse (run_llm env "Router" MODEL_FAST prompt).text = some p) :
    (runNextStep env prompt s).1.plan = some (normalizePlan p) ∧
    (∀ l, p.agents_to_run = some l → (normalizePlan p).agents_to_run = l) := by
  constructor
  · simp [runNextStep, h1, h2]
  · intro l hl
    simp [normalizePlan, hl]

/-- Witness for C2's amended theorem at a concrete environment. -/
theorem planner_stores_parsed_plan_witness :
    (runNextStep cexEnvC2 "write code" (freshState 0)).1.plan = some (normalizePlan cexParsedC2) ∧
    (normalizePlan cexParsedC2).agents_to_run = ["CodeGenAgent"] :=
  ⟨(planner_stores_parsed_plan cexEnvC2 "write code" (freshState 0) cexParsedC2 rfl rfl).1,
   (planner_stores_parsed_plan cexEnvC2 "write code" (freshState 0) cexParsedC2 rfl rfl).2
     ["CodeGenAgent"] rfl⟩

/-- C6: for every session at any stage, to_json followed by constructing
a session from the serialized state reproduces the session exactly —
same stage, plan, results and logs — and advancing the resumed session
proceeds directly to the next stage of the fixed chain (nextStage), the
step dispatching only gateway calls belonging to the stage being
executed and none belonging to any already completed stage (in
particular, a session resumed at STAGE1 advances to STAGE2 with no
Router or Stage-1 call re-invoked). -/
theorem session_roundtrip_resume (env : Env) (t0 : Int) (sess : Session) :
    mkSession sess.prompt t0 (some (toJson sess).2) = sess ∧
    (toJson sess).2.stage = sess.state.stage ∧
    (toJson sess).2.plan = sess.state.plan ∧
    (toJson sess).2.results = sess.state.results ∧
    (toJson sess).2.logs = sess.state.logs ∧
    (runNextStep env sess.prompt sess.state).1.stage = nextStage sess.state.stage ∧
    (∀ c ∈ (runNextStep env sess.prompt sess.state).2,
      c.task ∈ stageCallTasks sess.state.stage ∧
      c.task ∉ earlierTasks sess.state.stage) := by
  refine ⟨rfl, rfl, rfl, rfl, rfl, stage_step env sess.prompt sess.state, ?_⟩
  intro c hc
  by_cases h1 : sess.state.stage = "INIT"
  · rw [init_calls env sess.prompt sess.state h1] at hc
    simp only [List.mem_singleton] at hc
    rw [hc, h1]
    refine ⟨?_, ?_⟩ <;> simp [stageCallTasks, earlierTasks]
  · by_cases h2 : sess.state.stage = "PLANNED"
    · rw [planned_calls env sess.prompt sess.state h2] at hc
      simp only [List.mem_map] at hc
      obtain ⟨t, ht, heq⟩ := hc
      rw [← heq, h2]
      rcases stage1Tasks_tasknames _ t ht with h' | h' | h' | h' <;>
        · refine ⟨?_, ?_⟩ <;> simp [h', stageCallTasks, earlierTasks]
    · by_cases h3 : sess.state.stage = "STAGE1"
      · rcases stage1_branch_calls env sess.prompt sess.state h3 with hnil | ⟨ctx, hmap⟩
        · rw [hnil] at hc
          simp at hc
        · rw [hmap] at hc
          simp only [List.mem_map] at hc
          obtain ⟨n, hn, heq⟩ := hc
          rw [← heq, h3]
          rcases stage2Names_mem _ n hn with h' | h' | h' | h' <;>
            · refine ⟨?_, ?_⟩ <;> simp [h', stageCallTasks, earlierTasks]
      · by_cases h4 : sess.state.stage = "STAGE2"
        · rcases stage2_calls env sess.prompt sess.state h4 with hnil | ⟨ctx, hone⟩
          · rw [hnil] at hc
            simp at hc
          · rw [hone] at hc
            simp only [List.mem_singleton] at hc
            rw [hc, h4]
            refine ⟨?_, ?_⟩ <;> simp [stageCallTasks, earlierTasks]
        · rw [other_calls env sess.prompt sess.state h1 h2 h3 h4] at hc
          simp at hc

/-- A session paused at stage STAGE1 with a recorded Stage-1 result. -/
def cexSessionC6 : Session :=
  ⟨"make code",
   { stage := "STAGE1"
     plan := some ⟨some "t", ["CodeGenAgent", "SafetyAgent"], false, none⟩
     results := [("CodeGenAgent", ⟨"CODE", true, none⟩)]
     startTime := 0
     logs := [] }⟩

/-- Witness for C6's theorem at a concrete paused session, instantiating
the per-call facts at the one dispatched SafetyAgent call. -/
theorem session_roundtrip_resume_witness :
    mkSession cexSessionC6.prompt 0 (some (toJson cexSessionC6).2) = cexSessionC6 ∧
    (runNextStep cexEnvC1 cexSessionC6.prompt cexSessionC6.state).1.stage =
      nextStage cexSessionC6.state.stage ∧
    ((⟨"SafetyAgent", MODEL_FAST,
        "Original Request: make code\n\nCode:\nCODE"⟩ : Call).task ∈
      stageCallTasks cexSessionC6.state.stage ∧
     (⟨"SafetyAgent", MODEL_FAST,
        "Original Request: make code\n\nCode:\nCODE"⟩ : Call).task ∉
      earlierTasks cexSessionC6.state.stage) :=
  ⟨(session_roundtrip_resume cexEnvC1 0 cexSessionC6).1,
   (session_roundtrip_resume cexEnvC1 0 cexSessionC6).2.2.2.2.2.1,
   (session_roundtrip_resume cexEnvC1 0 cexSessionC6).2.2.2.2.2.2
     ⟨"SafetyAgent", MODEL_FAST, "Original Request: make code\n\nCode:\nCODE"⟩ (by decide)⟩

/-- A session state paused at STAGE2 with code, tests and an explanation
recorded, and an evaluator in the plan. -/
def cexStateC8 : SessionState :=
  { stage := "STAGE2"
    plan := some ⟨some "task", ["CodeGenAgent", "ExplainAgent", "TestGenAgent", "EvaluatorAgent"], false, none⟩
    results := [("CodeGenAgent", ⟨"THECODE", true, none⟩),
                ("ExplainAgent", ⟨"EXPLTEXT", true, none⟩),
                ("TestGenAgent", ⟨"THETESTS", true, none⟩)]
    startTime := 0
    logs := [] }

/-- An environment for exercising the Stage 3 step. -/
def cexEnvC8 : Env := ⟨fun _ _ _ => .success "Score: 9/10", fun _ => none⟩

/-- C8 counterexample: the Stage 3 evaluator context is built from the
request, the current code and the test text only — the recorded
explanation text does not occur in it, contrary to the claim that the
context includes the explanation text. -/
theorem stage3_missing_explanation_counterexample :
    (runNextStep cexEnvC8 "REQ" cexStateC8).2.map Call.context =
      ["Req: REQ\nCode: THECODE\nTests: THETESTS"] ∧
    strContains "Req: REQ\nCode: THECODE\nTests: THETESTS" "EXPLTEXT" = false := by
  exact ⟨rfl, rfl⟩

/-- C8 (amended): the Stage 3 step makes exactly one sequential evaluator
call, with context built from the request, the current code (docstring
output preferred over code-generation output) and the test text — not
the explanation text — and the call is made if and only if an evaluator
agent is in the plan and the current code is non-empty; otherwise no
call is made. -/
theorem stage3_single_eval_call (env : Env) (prompt : String) (s : SessionState)
    (h : s.stage = "STAGE2") :
    (runNextStep env prompt s).1.stage = "COMPLETE" ∧
    (if "EvaluatorAgent" ∈ activeAgents s ∧
        ¬pyOrStr (getTextOpt s.results "DocstringAgent") (getText s.results "CodeGenAgent") = "" then
      (runNextStep env prompt s).2 =
        [⟨"Evaluator", MODEL_FAST,
          "Req: " ++ prompt ++ "\nCode: " ++
            pyOrStr (getTextOpt s.results "DocstringAgent") (getText s.results "CodeGenAgent") ++
            "\nTests: " ++ getText s.results "TestGenAgent"⟩]
     else (runNextStep env prompt s).2 = []) := by
  refine ⟨by rw [stage_step, h]; rfl, ?_⟩
  by_cases hc : "EvaluatorAgent" ∈ activeAgents s ∧
      ¬pyOrStr (getTextOpt s.results "DocstringAgent") (getText s.results "CodeGenAgent") = ""
  · rw [if_pos hc]
    simp [runNextStep, h, hc]
  · rw [if_neg hc]
    simp [runNextStep, h, hc]

/-- Witness for C8's amended theorem at a concrete state. -/
theorem stage3_single_eval_call_witness :
    (runNextStep cexEnvC8 "REQ" cexStateC8).1.stage = "COMPLETE" ∧
    (runNextStep cexEnvC8 "REQ" cexStateC8).2 =
      [⟨"Evaluator", MODEL_FAST, "Req: REQ\nCode: THECODE\nTests: THETESTS"⟩] := by
  have h := stage3_single_eval_call cexEnvC8 "REQ" cexStateC8 rfl
  refine ⟨h.1, ?_⟩
  have h2 := h.2
  rw [if_pos (by constructor <;> decide)] at h2
  rw [h2]
  rfl

/-- A results mapping holding only a debug-agent output. -/
def cexResultsC7 : Results := [("DebugAgent", ⟨"FIXEDCODE", true, none⟩)]

/-- C7 counterexample: get_summary never consults a debug output.  With
results holding only a debug-agent entry, the claim's resolution chain
(doc else debug else codegen else empty) yields the debug text, but
get_summary yields the empty string. -/
theorem summary_debug_output_counterexample :
    claimFinalCode cexResultsC7 = "FIXEDCODE" ∧
    (getSummary 0 ⟨"COMPLETE", none, cexResultsC7, 0, []⟩).generated_code = "" ∧
    (getSummary 0 ⟨"COMPLETE", none, cexResultsC7, 0, []⟩).generated_code ≠
      claimFinalCode cexResultsC7 := by
  exact ⟨rfl, rfl, by decide⟩

/-- C7 (amended): get_summary is a deterministic function of the session
state plus the clock reading (the latency field alone depends on the
clock), and it resolves generated_code as the documentation-agent output
when present and non-empty, else the code-generation output when
present, else the empty string — no debug output is consulted (the
repository wires no debug agent into the pipeline).  The synthetic-case
conjuncts exercise the resolution with only subsets of results
populated. -/
theorem summary_final_code_resolution (rs : Results) (plan : Option Plan) (stg : String)
    (logs : List LogMsg) (t0 now : Int) :
    ((getSummary now ⟨stg, plan, rs, t0, logs⟩).generated_code =
      match getTextOpt rs "DocstringAgent" with
      | some d => if d = "" then getText rs "CodeGenAgent" else d
      | none => getText rs "CodeGenAgent") ∧
    (getSummary now ⟨stg, plan,
      [("DocstringAgent", ⟨"DOCCODE", true, none⟩), ("CodeGenAgent", ⟨"GENCODE", true, none⟩)],
      t0, logs⟩).generated_code = "DOCCODE" ∧
    (getSummary now ⟨stg, plan, [("CodeGenAgent", ⟨"GENCODE", true, none⟩)], t0,
      logs⟩).generated_code = "GENCODE" ∧
    (getSummary now ⟨stg, plan, [], t0, logs⟩).generated_code = "" := by
  refine ⟨?_, rfl, rfl, rfl⟩
  cases hd : getTextOpt rs "DocstringAgent" <;> simp [getSummary, pyOrStr, hd]

/-- C5: the Auto-Repair Loop (modelled from the spec; absent from src/)
is triggered exactly when the test text is non-empty and the current
code is non-empty, terminates in one of the terminal states PASSED,
RE-PASSED, RE-FAILED, and invokes the debug agent at most once even when
the re-run still fails. -/
theorem auto_repair_bounded_retry (sandbox : String → RunResult)
    (debugA : String → String → String) (code tests : String)
    (h1 : tests ≠ "") (h2 : code ≠ "") :
    maybeAutoRepair sandbox debugA code tests = some (autoRepair sandbox debugA code tests) ∧
    ((autoRepair sandbox debugA code tests).final = RepairState.PASSED ∨
     (autoRepair sandbox debugA code tests).final = RepairState.REPASSED ∨
     (autoRepair sandbox debugA code tests).final = RepairState.REFAILED) ∧
    (autoRepair sandbox debugA code tests).debugCalls ≤ 1 := by
  refine ⟨by simp [maybeAutoRepair, h1, h2], ?_, ?_⟩ <;>
    · by_cases hr1 : (sandbox (code ++ "\n" ++ tests)).stderr = ""
      · simp [autoRepair, hr1]
      · by_cases hr2 :
          (sandbox (debugA code (sandbox (code ++ "\n" ++ tests)).stderr ++ "\n" ++ tests)).stderr = ""
        · simp [autoRepair, hr1, hr2]
        · simp [autoRepair, hr1, hr2]

/-- A sandbox whose run always reports empty stderr. -/
def cexSandbox : String → RunResult := fun _ => ⟨"", "", 0⟩

/-- A debug agent that returns its input code unchanged. -/
def cexDebugA : String → String → String := fun c _ => c

/-- Witness for C5's theorem at a concrete sandbox and debug agent. -/
theorem auto_repair_bounded_retry_witness :
    maybeAutoRepair cexSandbox cexDebugA "print(1)" "assert True" =
      some (autoRepair cexSandbox cexDebugA "print(1)" "assert True") ∧
    ((autoRepair cexSandbox cexDebugA "print(1)" "assert True").final = RepairState.PASSED ∨
     (autoRepair cexSandbox cexDebugA "print(1)" "assert True").final = RepairState.REPASSED ∨
     (autoRepair cexSandbox cexDebugA "print(1)" "assert True").final = RepairState.REFAILED) ∧
    (autoRepair cexSandbox cexDebugA "print(1)" "assert True").debugCalls ≤ 1 :=
  auto_repair_bounded_retry cexSandbox cexDebugA "print(1)" "assert True"
    (by decide) (by decide)

/-- C9: run_python_code always returns a stdout/stderr/return_code record
(it is a total function — no exception escapes); a timeout yields the
synthetic record with exit code 1 (non-zero) and the fixed
timeout-specific stderr; at the external interpreter modelled from the
spec and the repository's tests, print('Hello World') yields exit code
0, stdout "Hello World\n" and empty stderr, and print(1/0) yields a
non-zero exit code with stderr containing ZeroDivisionError. -/
theorem run_code_timeout_and_fixed_inputs (exec : String → SubprocOutcome) (code : String)
    (h : exec code = SubprocOutcome.timedOut) :
    run_python_code exec code =
      ⟨"", "Error: Code execution timed out after 10 seconds.", 1⟩ ∧
    (run_python_code exec code).return_code ≠ 0 ∧
    run_python_code pythonExecModel "print('Hello World')" = ⟨"Hello World\n", "", 0⟩ ∧
    (run_python_code pythonExecModel "print(1/0)").return_code ≠ 0 ∧
    strContains (run_python_code pythonExecModel "print(1/0)").stderr "ZeroDivisionError" = true := by
  refine ⟨by simp [run_python_code, h], by simp [run_python_code, h], rfl, by decide, by rfl⟩

/-- A subprocess behavior that always times out. -/
def cexTimeoutExec : String → SubprocOutcome := fun _ => .timedOut

/-- Witness for C9's theorem at a concrete always-timing-out behavior. -/
theorem run_code_timeout_and_fixed_inputs_witness :
    run_python_code cexTimeoutExec "while True: pass" =
      ⟨"", "Error: Code execution timed out after 10 seconds.", 1⟩ ∧
    (run_python_code cexTimeoutExec "while True: pass").return_code ≠ 0 ∧
    run_python_code pythonExecModel "print('Hello World')" = ⟨"Hello World\n", "", 0⟩ ∧
    (run_python_code pythonExecModel "print(1/0)").return_code ≠ 0 ∧
    strContains (run_python_code pythonExecModel "print(1/0)").stderr "ZeroDivisionError" = true :=
  run_code_timeout_and_fixed_inputs cexTimeoutExec "while True: pass" rfl

/-- C3: in any session whose first two steps (routing and Stage 1) left
no code-generation text — the CodeGenAgent call failed (empty text on
gateway error) or returned empty — the Stage-2 step dispatches no
derivative agent (SafetyAgent, TestGenAgent, DocstringAgent,
TranslateAgent), the Stage-3 step makes no evaluator call, and a summary
is still produced (get_summary is total) whose generated_code is empty
and whose logs carry the "no code generated" marker. -/
theorem codegen_failure_skips_pipeline (env : Env) (prompt : String) (t0 now : Int)
    (h : getText (runSteps env prompt 2 (freshState t0)).1.results "CodeGenAgent" = "") :
    (runNextStep env prompt (runSteps env prompt 2 (freshState t0)).1).2 = [] ∧
    (runNextStep env prompt
      (runNextStep env prompt (runSteps env prompt 2 (freshState t0)).1).1).2 = [] ∧
    (getSummary now (runNextStep env prompt
      (runNextStep env prompt (runSteps env prompt 2 (freshState t0)).1).1).1).generated_code = "" ∧
    LogMsg.noCodeSkipStage2 ∈ (getSummary now (runNextStep env prompt
      (runNextStep env prompt (runSteps env prompt 2 (freshState t0)).1).1).1).logs := by
  have hs2eq : (runSteps env prompt 2 (freshState t0)).1 =
      (runNextStep env prompt (runNextStep env prompt (freshState t0)).1).1 := by
    show (runSteps env prompt (1 + 1) (freshState t0)).1 = _
    rw [runSteps_fst_succ]
    show (runSteps env prompt (0 + 1) _).1 = _
    rw [runSteps_fst_succ]
    rfl
  have hstage2 : (runSteps env prompt 2 (freshState t0)).1.stage = "STAGE1" := by
    rw [hs2eq, stage_step, stage_step]
    rfl
  have hs1res : ((runNextStep env prompt (freshState t0)).1).results = [] :=
    init_results_eq env prompt _ rfl
  have hdoc : getR (runSteps env prompt 2 (freshState t0)).1.results "DocstringAgent" = none := by
    rw [hs2eq, planned_results_eq env prompt _ (by rw [stage_step]; rfl)]
    rw [getR_stage1_foldl]
    · rw [hs1res]
      rfl
    · intro t ht
      rcases stage1Tasks_keys _ t ht with h' | h' | h' | h' <;> simp [h']
  have hstep3 := stage1_nocode_step env prompt _ hstage2 h
  have hstage3 : ((runNextStep env prompt (runSteps env prompt 2 (freshState t0)).1).1).stage =
      "STAGE2" := by
    rw [hstep3]
  have hb : pyOrStr
      (getTextOpt ((runNextStep env prompt (runSteps env prompt 2 (freshState t0)).1).1).results
        "DocstringAgent")
      (getText ((runNextStep env prompt (runSteps env prompt 2 (freshState t0)).1).1).results
        "CodeGenAgent") = "" := by
    rw [hstep3]
    show pyOrStr (getTextOpt (runSteps env prompt 2 (freshState t0)).1.results "DocstringAgent")
      (getText (runSteps env prompt 2 (freshState t0)).1.results "CodeGenAgent") = ""
    unfold getTextOpt
    rw [hdoc, h]
    rfl
  have hstep4 := stage2_skip_eval_step env prompt _ hstage3 hb
  refine ⟨by rw [hstep3], by rw [hstep4], ?_, ?_⟩
  · rw [hstep4, hstep3]
    show pyOrStr (getTextOpt (runSteps env prompt 2 (freshState t0)).1.results "DocstringAgent")
      (getText (runSteps env prompt 2 (freshState t0)).1.results "CodeGenAgent") = ""
    unfold getTextOpt
    rw [hdoc, h]
    rfl
  · rw [hstep4, hstep3]
    show LogMsg.noCodeSkipStage2 ∈
      (((runSteps env prompt 2 (freshState t0)).1.logs ++ [LogMsg.noCodeSkipStage2]) ++
        [LogMsg.workflowComplete])
    simp

/-- A parsed router plan activating code generation plus derivative and
evaluator agents. -/
def cexParsedC3 : ParsedPlan :=
  ⟨some "code request", some ["CodeGenAgent", "SafetyAgent", "TestGenAgent", "EvaluatorAgent"],
   some true, none⟩

/-- An environment whose gateway always raises, so the CodeGenAgent call
fails and records empty text. -/
def cexEnvC3 : Env := ⟨fun _ _ _ => .failure "gateway down", fun _ => some cexParsedC3⟩

/-- Witness for C3's theorem at a concrete failing-gateway environment. -/
theorem codegen_failure_skips_pipeline_witness :
    getText (runSteps cexEnvC3 "p" 2 (freshState 0)).1.results "CodeGenAgent" = "" ∧
    (runNextStep cexEnvC3 "p" (runSteps cexEnvC3 "p" 2 (freshState 0)).1).2 = [] ∧
    (runNextStep cexEnvC3 "p"
      (runNextStep cexEnvC3 "p" (runSteps cexEnvC3 "p" 2 (freshState 0)).1).1).2 = [] ∧
    (getSummary 0 (runNextStep cexEnvC3 "p"
      (runNextStep cexEnvC3 "p" (runSteps cexEnvC3 "p" 2 (freshState 0)).1).1).1).generated_code =
      "" ∧
    LogMsg.noCodeSkipStage2 ∈ (getSummary 0 (runNextStep cexEnvC3 "p"
      (runNextStep cexEnvC3 "p" (runSteps cexEnvC3 "p" 2 (freshState 0)).1).1).1).logs :=
  ⟨rfl, codegen_failure_skips_pipeline cexEnvC3 "p" 0 0 rfl⟩
